import Mathlib

/-!
Shallow embedding of the configuration renderer of
`src/pyoxidizer/src/py_packaging/pyembed.rs` and of the Starlark context
lifecycle of `src/tugger/src/starlark/mod.rs`, together with theorems
settling the specification claims about them.

Strings are modelled by Lean `String` (a wrapper around `List Char`);
Rust's `format!` interpolation becomes explicit string concatenation,
with each interpolated match arm of the source transcribed as its own
Lean definition. Rust's `i64` fields are modelled by `Int`.  Curly
braces that occur as text inside generated source are written with the
escapes `\x7b` and `\x7d`.
-/

/-- The `RawAllocator` enum from `py_packaging/config.rs` (only its three
variants are needed by the renderer). -/
inductive RawAllocator where
  | Jemalloc
  | Rust
  | System

/-- The `TerminfoResolution` enum from `py_packaging/config.rs`. -/
inductive TerminfoResolution where
  | Dynamic
  | None
  | Static (v : String)

/-- The `RunMode` enum from `py_packaging/config.rs`: no-op, REPL, named
module, inline eval code, or file path. -/
inductive RunMode where
  | Noop
  | Repl
  | Module (module : String)
  | Eval (code : String)
  | File (path : String)

/-- The fields of `EmbeddedPythonConfig` consumed by
`derive_python_config` (the struct declaration lives in
`py_packaging/config.rs`; the field list and types are exactly those the
renderer reads). -/
structure EmbeddedPythonConfig where
  isolated : Bool
  stdio_encoding_name : Option String
  stdio_encoding_errors : Option String
  optimize_level : Int
  sys_paths : List String
  bytes_warning : Int
  site_import : Bool
  user_site_directory : Bool
  ignore_environment : Bool
  inspect : Bool
  interactive : Bool
  legacy_windows_fs_encoding : Bool
  legacy_windows_stdio : Bool
  write_bytecode : Bool
  unbuffered_stdio : Bool
  parser_debug : Bool
  quiet : Bool
  verbose : Int
  raw_allocator : RawAllocator
  filesystem_importer : Bool
  sys_frozen : Bool
  sys_meipass : Bool
  terminfo_resolution : TerminfoResolution
  write_modules_directory_env : Option String
  run_mode : RunMode

/-- Rust's `Display` for `bool`: `true` or `false`. -/
def display_bool (b : Bool) : String := if b then "true" else "false"

/-- The `profile` argument of the renderer:
`if embedded.isolated { "...Isolated" } else { "...Python" }`. -/
def render_profile (isolated : Bool) : String :=
  if isolated then "pyembed::PythonInterpreterProfile::Isolated"
  else "pyembed::PythonInterpreterProfile::Python"

/-- The match arm for `stdio_encoding_name` / `stdio_encoding_errors`:
`Some(value) => format_args!("Some(\"{}\")", value)`, `None => "None"`. -/
def render_optional_str (v : Option String) : String :=
  match v with
  | some value => "Some(\"" ++ value ++ "\")"
  | none => "None"

/-- The match table for `embedded.optimize_level` (arms `0`, `1`, `2` and
the catch-all `_`, which also yields the level-two case). -/
def render_optimize_level (n : Int) : String :=
  if n = 0 then "pyembed::OptimizationLevel::Zero"
  else if n = 1 then "pyembed::OptimizationLevel::One"
  else if n = 2 then "pyembed::OptimizationLevel::Two"
  else "pyembed::OptimizationLevel::Two"

/-- `Vec::join(", ")` on a list of already rendered pieces. -/
def join_comma : List String → String
  | [] => ""
  | [s] => s
  | s :: rest => s ++ ", " ++ join_comma rest

/-- The `sys_paths` argument: `None` when empty, otherwise
`Some("p0".to_string(), ...)` with each path rendered as
`"\"".to_owned() + p + "\".to_string()"` and joined by `", "`. -/
def render_sys_paths (sys_paths : List String) : String :=
  if sys_paths.isEmpty then "None"
  else "Some(" ++ join_comma (sys_paths.map (fun p => "\"" ++ p ++ "\".to_string()")) ++ ")"

/-- The match table for `embedded.bytes_warning` (arms `0`, `1`, `2` and
the catch-all `_`, which also yields `Raise`). -/
def render_bytes_warning (n : Int) : String :=
  if n = 0 then "pyembed::BytesWarning::None"
  else if n = 1 then "pyembed::BytesWarning::Warn"
  else if n = 2 then "pyembed::BytesWarning::Raise"
  else "pyembed::BytesWarning::Raise"

/-- The match table for `embedded.raw_allocator`. -/
def render_raw_allocator : RawAllocator → String
  | RawAllocator.Jemalloc => "pyembed::PythonRawAllocator::jemalloc()"
  | RawAllocator.Rust => "pyembed::PythonRawAllocator::rust()"
  | RawAllocator.System => "pyembed::PythonRawAllocator::system()"

/-- The match table for `embedded.terminfo_resolution`.  Transcribed
exactly: the `Static` arm of the source emits
`format!("pyembed::TerminfoResolution::Static(r###\"{}\"###", v)`,
whose format string does not contain a closing parenthesis. -/
def render_terminfo : TerminfoResolution → String
  | TerminfoResolution.Dynamic => "pyembed::TerminfoResolution::Dynamic"
  | TerminfoResolution.None => "pyembed::TerminfoResolution::None"
  | TerminfoResolution.Static v => "pyembed::TerminfoResolution::Static(r###\"" ++ v ++ "\"###"

/-- The match arm for `embedded.write_modules_directory_env`:
`Some(path) => "Some(\"".to_owned() + &path + "\".to_string())"`. -/
def render_write_modules_directory_env : Option String → String
  | some path => "Some(\"" ++ path ++ "\".to_string())"
  | _ => "None"

/-- The match table for `embedded.run_mode` (five variants). -/
def render_run_mode : RunMode → String
  | RunMode.Noop => "pyembed::PythonRunMode::None"
  | RunMode.Repl => "pyembed::PythonRunMode::Repl"
  | RunMode.Module module =>
      "pyembed::PythonRunMode::Module \x7b module: \"" ++ module ++ "\".to_string() \x7d"
  | RunMode.Eval code =>
      "pyembed::PythonRunMode::Eval \x7b code: r###\"" ++ code ++ "\"###.to_string() \x7d"
  | RunMode.File path =>
      "pyembed::PythonRunMode::File \x7b path: std::path::PathBuf::new(r###\"" ++ path ++ "\"###) \x7d"

/-- The body of `derive_python_config`: the single `format!` template of
the source with every `{}` replaced by the corresponding rendered
argument.  `embedded_resources_path` is the `.display()` rendering of
the `PathBuf` argument. -/
def derive_python_config (embedded : EmbeddedPythonConfig)
    (embedded_resources_path : String) : String :=
  "pyembed::OxidizedPythonInterpreterConfig \x7b\n    interpreter_config: pyembed::PythonInterpreterConfig \x7b\n        profile: "
  ++ render_profile embedded.isolated
  ++ ",\n        allocator: None,\n        configure_locale: None,\n        coerce_c_locale: None,\n        coerce_c_locale_warn: None,\n        development_mode: None,\n        isolated: None,\n        parse_argv: None,\n        utf8_mode: None,\n        argv: None,\n        base_exec_prefix: None,\n        base_executable: None,\n        base_prefix: None,\n        check_hash_pycs_mode: None,\n        configure_c_stdio: None,\n        dump_refs: None,\n        exec_prefix: None,\n        executable: None,\n        fault_handler: None,\n        filesystem_encoding: None,\n        filesystem_errors: None,\n        hash_seed: None,\n        home: None,\n        import_time: None,\n        install_signal_handlers: None,\n        malloc_stats: None,\n        prefix: None,\n        program_name: None,\n        python_path_env: None,\n        pathconfig_warnings: None,\n        pycache_prefix: None,\n        run_command: None,\n        run_filename: None,\n        run_module: None,\n        tracemalloc: None,\n        warn_options: None,\n        show_alloc_count: None,\n        show_ref_count: None,\n        skip_first_source_line: None,\n        x_options: None,\n        stdio_encoding: "
  ++ render_optional_str embedded.stdio_encoding_name
  ++ ",\n        stdio_errors: "
  ++ render_optional_str embedded.stdio_encoding_errors
  ++ ",\n        optimization_level: Some("
  ++ render_optimize_level embedded.optimize_level
  ++ "),\n        module_search_paths: "
  ++ render_sys_paths embedded.sys_paths
  ++ ",\n        bytes_warning: Some("
  ++ render_bytes_warning embedded.bytes_warning
  ++ "),\n        "
  ++ "site_import: Some("
  ++ display_bool embedded.site_import
  ++ "),\n        "
  ++ "user_site_directory: Some("
  ++ display_bool embedded.user_site_directory
  ++ "),\n        "
  ++ "use_environment: Some("
  ++ display_bool (!embedded.ignore_environment)
  ++ "),\n        "
  ++ "inspect: Some("
  ++ display_bool embedded.inspect
  ++ "),\n        "
  ++ "interactive: Some("
  ++ display_bool embedded.interactive
  ++ "),\n        "
  ++ "legacy_windows_fs_encoding: Some("
  ++ display_bool embedded.legacy_windows_fs_encoding
  ++ "),\n        "
  ++ "legacy_windows_stdio: Some("
  ++ display_bool embedded.legacy_windows_stdio
  ++ "),\n        "
  ++ "write_bytecode: Some("
  ++ display_bool embedded.write_bytecode
  ++ "),\n        "
  ++ "buffered_stdio: Some("
  ++ display_bool (!embedded.unbuffered_stdio)
  ++ "),\n        "
  ++ "parser_debug: Some("
  ++ display_bool embedded.parser_debug
  ++ "),\n        "
  ++ "quiet: Some("
  ++ display_bool embedded.quiet
  ++ "),\n        "
  ++ "verbose: Some("
  ++ display_bool (embedded.verbose != 0)
  ++ "),\n        \x7d,\n    raw_allocator: Some("
  ++ render_raw_allocator embedded.raw_allocator
  ++ "),\n    oxidized_importer: true,\n    filesystem_importer: "
  ++ display_bool embedded.filesystem_importer
  ++ ",\n    packed_resources: Some(include_bytes!(r#\""
  ++ embedded_resources_path
  ++ "\"#)),\n    extra_extension_modules: None,\n    argvb: false,\n    sys_frozen: "
  ++ display_bool embedded.sys_frozen
  ++ ",\n    sys_meipass: "
  ++ display_bool embedded.sys_meipass
  ++ ",\n    terminfo_resolution: "
  ++ render_terminfo embedded.terminfo_resolution
  ++ ",\n    write_modules_directory_env: "
  ++ render_write_modules_directory_env embedded.write_modules_directory_env
  ++ ",\n    run: "
  ++ render_run_mode embedded.run_mode
  ++ ",\n\x7d\n"

/-- Consume an expected sequence of characters from the front of a list,
returning the remainder on success. -/
def stripPfx : List Char → List Char → Option (List Char)
  | [], l => some l
  | _, [] => none
  | p :: ps, c :: cs => if p = c then stripPfx ps cs else none

/-- Decoding of the escape sequences of Rust double-quoted string
literals that consist of a backslash followed by one character. -/
def unescape_char (e : Char) : Option Char :=
  if e = 'n' then some '\n'
  else if e = 't' then some '\t'
  else if e = 'r' then some '\x0d'
  else if e = '\x22' then some '\x22'
  else if e = '\x5c' then some '\x5c'
  else if e = '\x27' then some '\x27'
  else if e = '0' then some '\x00'
  else none

/-- Lex the body of a Rust double-quoted string literal, the opening
quote already consumed: returns the decoded content and the input
remaining after the closing quote, or `none` when the literal is
unterminated or uses an unsupported escape. -/
def lexStrBody : List Char → Option (List Char × List Char)
  | [] => none
  | c :: rest =>
    if c = '\x22' then some ([], rest)
    else if c = '\x5c' then
      match rest with
      | [] => none
      | e :: rest2 =>
        match unescape_char e, lexStrBody rest2 with
        | some d, some (s, r) => some (d :: s, r)
        | _, _ => none
    else
      match lexStrBody rest with
      | some (s, r) => some (c :: s, r)
      | none => none

/-- Lex the body of a Rust raw string literal opened with `r###"`: the
content runs until the first `"###`, which is consumed.  Returns `none`
when the terminator never occurs. -/
def lexRawBody3 : List Char → Option (List Char × List Char)
  | [] => none
  | c :: rest =>
    if c = '\x22' ∧ rest.take 3 = ['#', '#', '#'] then some ([], rest.drop 3)
    else
      match lexRawBody3 rest with
      | some (s, r) => some (c :: s, r)
      | none => none

/-- Whether `pat` occurs as a contiguous subsequence of `l`. -/
def hasSeq (pat : List Char) : List Char → Bool
  | [] => pat.isEmpty
  | c :: rest => pat.isPrefixOf (c :: rest) || hasSeq pat rest

/-- A string is safe for verbatim inclusion inside a Rust double-quoted
literal iff it contains neither a double quote nor a backslash. -/
def quotedOk (s : String) : Bool :=
  s.data.all (fun c => !(c = '\x22' : Bool) && !(c = '\x5c' : Bool))

/-- A string is safe for verbatim inclusion inside an `r###"..."###` raw
literal iff it does not contain the terminator sequence `"###`. -/
def rawOk (s : String) : Bool :=
  ! hasSeq ['\x22', '#', '#', '#'] s.data

/-- Parse a fragment of the exact shape `Some("<literal body>")` and
return the decoded literal content. -/
def parseSomeQuoted (s : String) : Option String :=
  match stripPfx ("Some(\"").data s.data with
  | none => none
  | some l =>
    match lexStrBody l with
    | some (content, [')']) => some (String.mk content)
    | _ => none

/-- Parse a fragment of the exact shape `Some("<body>".to_string())` and
return the decoded literal content. -/
def parseSomeQuotedToString (s : String) : Option String :=
  match stripPfx ("Some(\"").data s.data with
  | none => none
  | some l =>
    match lexStrBody l with
    | some (content, r) =>
      if r = (".to_string())").data then some (String.mk content) else none
    | none => none

/-- Parse the rendered `Module` run-mode fragment and return its module
name payload. -/
def parseModulePayload (s : String) : Option String :=
  match stripPfx ("pyembed::PythonRunMode::Module \x7b module: \"").data s.data with
  | none => none
  | some l =>
    match lexStrBody l with
    | some (content, r) =>
      if r = (".to_string() \x7d").data then some (String.mk content) else none
    | none => none

/-- Parse the rendered `Eval` run-mode fragment and return its code
payload (the content of the `r###"..."###` raw literal). -/
def parseEvalPayload (s : String) : Option String :=
  match stripPfx ("pyembed::PythonRunMode::Eval \x7b code: r###\"").data s.data with
  | none => none
  | some l =>
    match lexRawBody3 l with
    | some (content, r) =>
      if r = (".to_string() \x7d").data then some (String.mk content) else none
    | none => none

/-- Parse the rendered `File` run-mode fragment and return its path
payload (the content of the `r###"..."###` raw literal). -/
def parseFilePayload (s : String) : Option String :=
  match stripPfx ("pyembed::PythonRunMode::File \x7b path: std::path::PathBuf::new(r###\"").data s.data with
  | none => none
  | some l =>
    match lexRawBody3 l with
    | some (content, r) =>
      if r = (") \x7d").data then some (String.mk content) else none
    | none => none

/-- Parse a terminfo fragment of the shape
`pyembed::TerminfoResolution::Static(r###"<path>"###)` -- a complete
call expression with its closing parenthesis -- and return the path. -/
def parseStaticTerminfo (s : String) : Option String :=
  match stripPfx ("pyembed::TerminfoResolution::Static(r###\"").data s.data with
  | none => none
  | some l =>
    match lexRawBody3 l with
    | some (content, [')']) => some (String.mk content)
    | _ => none

/-- A terminfo fragment is well formed when it is one of the two niladic
variant paths or a complete `Static(...)` call expression. -/
def terminfoWellFormed (s : String) : Bool :=
  (s == "pyembed::TerminfoResolution::Dynamic")
  || (s == "pyembed::TerminfoResolution::None")
  || (parseStaticTerminfo s).isSome

/-- Number of opening parentheses minus number of closing parentheses. -/
def parenDelta (s : String) : Int :=
  (s.data.count '(' : Int) - (s.data.count ')' : Int)

/-- Splitting a character sequence at every newline, as Rust's
`str::split('\n')`: always returns at least one (possibly empty) chunk,
and an empty chunk for each pair of adjacent delimiters. -/
def splitNl : List Char → List (List Char)
  | [] => [[]]
  | c :: rest =>
    match splitNl rest with
    | [] => [[]]
    | l :: ls => if c = '\n' then [] :: l :: ls else (c :: l) :: ls

/-- Joining chunks with a newline between consecutive chunks, as
itertools' `join("\n")`. -/
def joinNl : List (List Char) → List Char
  | [] => []
  | [l] => l
  | l :: ls => l ++ '\n' :: joinNl ls

/-- The indentation step of `write_default_python_config_rs`:
`python_config_rs.split('\n').map(|line| "    ".to_owned() + line).join("\n")`. -/
def indent_config (python_config_rs : String) : String :=
  String.mk (joinNl ((splitNl python_config_rs.data).map (fun line => ("    ").data ++ line)))

/-- The full text written by `write_default_python_config_rs`: the fixed
doc comment, the `default_python_config` function header, the indented
body and the closing brace. -/
def default_python_config_content (python_config_rs : String) : String :=
  "/// Obtain the default Python configuration\n///\n/// The crate is compiled with a default Python configuration embedded\n/// in the crate. This function will return an instance of that\n/// configuration.\npub fn default_python_config<\x27a>() -> pyembed::OxidizedPythonInterpreterConfig<\x27a> \x7b\n"
  ++ indent_config python_config_rs
  ++ "\n\x7d\n"

/-- An I/O error, kept abstract (a tag), as `anyhow` propagates the
underlying error value verbatim. -/
structure IoError where
  tag : Nat

/-- The filesystem surface `write_default_python_config_rs` touches:
current file contents plus, per path, whether `File::create` or the
subsequent write fails there (the environment decides; the function
itself never retries). -/
structure FsState where
  files : List (String × String)
  createErr : List (String × IoError)
  writeErr : List (String × IoError)

/-- First-match association-list lookup. -/
def lookupA {α : Type} : List (String × α) → String → Option α
  | [], _ => none
  | (k, v) :: rest, key => if k = key then some v else lookupA rest key

/-- Model of `write_default_python_config_rs`: create (or truncate) the
file at `path`, then write the wrapped declaration; either step fails
with the environment's underlying I/O error, which is returned to the
caller unchanged (`?` propagation), with no retry. -/
def write_default_python_config_rs (fs : FsState) (path : String)
    (python_config_rs : String) : Except IoError FsState :=
  match lookupA fs.createErr path with
  | some e => Except.error e
  | none =>
    match lookupA fs.writeErr path with
    | some e => Except.error e
    | none =>
      Except.ok { fs with files := (path, default_python_config_content python_config_rs) :: fs.files }

/-- Number of opening curly braces minus closing curly braces in a
character sequence. -/
def curlyDelta (l : List Char) : Int :=
  (l.count '\x7b' : Int) - (l.count '\x7d' : Int)

/-- Global context carried through a Tugger Starlark evaluation
(`TuggerContext`): a log sink (opaque tag) and the accumulated
`code_signers` values (opaque handles). -/
structure TuggerContext where
  logger : Nat
  code_signers : List Nat

/-- The errors the host scripting environment's `Environment::set` /
`Environment::get` can signal (the starlark crate is an external
collaborator; only the error kinds this layer can meet are modelled). -/
inductive EnvironmentError where
  | CannotModifyImmutableEnvironment
  | VariableNotFound

/-- A `RuntimeError` value of the starlark crate: error code, message
and label. -/
structure RuntimeError where
  code : String
  message : String
  label : String

/-- A Starlark environment as this layer uses it, with reference-cell
semantics for values: `heap` maps references to `TuggerContext` payloads,
`vars` is the script-visible variable namespace (`Environment`), and
`typeValues` is the per-type symbol table (`TypeValues`), keyed by type
name and symbol. -/
structure StarEnv where
  vars : List (String × Nat)
  typeValues : List ((String × String) × Nat)
  heap : List (Nat × TuggerContext)
  nextRef : Nat
  frozen : Bool

/-- Lookup in the `TypeValues` table by type name and symbol. -/
def lookupTV : List ((String × String) × Nat) → String → String → Option Nat
  | [], _, _ => none
  | ((ty, sym), r) :: rest, tyq, symq =>
    if ty = tyq ∧ sym = symq then some r else lookupTV rest tyq symq

/-- Lookup of a heap cell. -/
def heapLookup : List (Nat × TuggerContext) → Nat → Option TuggerContext
  | [], _ => none
  | (k, c) :: rest, r => if k = r then some c else heapLookup rest r

/-- The `ENVIRONMENT_CONTEXT_SYMBOL` constant of
`tugger/src/starlark/mod.rs`. -/
def ENVIRONMENT_CONTEXT_SYMBOL : String := "TUGGER_CONTEXT"

/-- `TuggerContextHolder::TYPE`, the type name under which the context
is registered in `TypeValues`. -/
def TUGGER_CONTEXT_TYPE : String := "Tugger"

/-- The error built by `get_context_value` when the symbol is absent:
`RuntimeError { code: "TUGGER", message: "unable to resolve context
(this should never happen)", label: "" }`. -/
def contextNotFoundError : RuntimeError :=
  { code := "TUGGER"
    message := "unable to resolve context (this should never happen)"
    label := "" }

/-- Model of `get_context_value`: look the reserved symbol up in the
`TypeValues` table under the `TuggerContextHolder` type name, failing
with the dedicated context-not-found `RuntimeError`. -/
def get_context_value (type_values : List ((String × String) × Nat)) :
    Except RuntimeError Nat :=
  match lookupTV type_values TUGGER_CONTEXT_TYPE ENVIRONMENT_CONTEXT_SYMBOL with
  | some r => Except.ok r
  | none => Except.error contextNotFoundError

/-- Model of `populate_environment`: allocate a fresh value holding the
context, `env.set` it under the reserved symbol (which fails on a frozen
environment), read it back with `env.get` and register it in
`TypeValues` under the `TuggerContextHolder` type name. -/
def populate_environment (env : StarEnv) (context : TuggerContext) :
    Except EnvironmentError StarEnv :=
  if env.frozen then Except.error EnvironmentError.CannotModifyImmutableEnvironment
  else
    let r := env.nextRef
    let env1 : StarEnv :=
      { env with
        heap := (r, context) :: env.heap
        vars := (ENVIRONMENT_CONTEXT_SYMBOL, r) :: env.vars
        nextRef := r + 1 }
    match lookupA env1.vars ENVIRONMENT_CONTEXT_SYMBOL with
    | none => Except.error EnvironmentError.VariableNotFound
    | some r2 =>
      Except.ok { env1 with typeValues := ((TUGGER_CONTEXT_TYPE, ENVIRONMENT_CONTEXT_SYMBOL), r2) :: env1.typeValues }

/-- Mutation of the context state reachable through a value handle
(`Deref/DerefMut` on `TuggerContextValue`): updates the heap cell in
place, as all clones of a starlark `Value` share one cell. -/
def mutateContext (env : StarEnv) (r : Nat) (f : TuggerContext → TuggerContext) : StarEnv :=
  { env with heap := env.heap.map (fun e => if e.1 = r then (e.1, f e.2) else e) }

/-- Identifier syntax of the configuration scripting language.
Modelled from the spec: the scripting language itself is an external
collaborator whose grammar is out of scope of the source tree, so the
standard Starlark identifier grammar is used -- a nonempty sequence of
ASCII letters, digits and underscores not starting with a digit. -/
def isStarlarkIdent (s : String) : Bool :=
  match s.data with
  | [] => false
  | c :: rest =>
    (c.isAlpha || c = '_') && rest.all (fun d => d.isAlpha || d.isDigit || d = '_')

/-- Whether `s` starts with the marker `mk` (the variant tag of a
rendered run-mode literal sits at its head). -/
def leadsWith (s mk : String) : Bool := mk.data.isPrefixOf s.data

/-- The five variant markers a rendered run-mode literal can start
with. -/
def runModeMarkers : List String :=
  ["pyembed::PythonRunMode::None", "pyembed::PythonRunMode::Repl",
   "pyembed::PythonRunMode::Module", "pyembed::PythonRunMode::Eval",
   "pyembed::PythonRunMode::File"]

/-- The marker matching a given run-mode variant. -/
def run_mode_marker : RunMode → String
  | RunMode.Noop => "pyembed::PythonRunMode::None"
  | RunMode.Repl => "pyembed::PythonRunMode::Repl"
  | RunMode.Module _ => "pyembed::PythonRunMode::Module"
  | RunMode.Eval _ => "pyembed::PythonRunMode::Eval"
  | RunMode.File _ => "pyembed::PythonRunMode::File"

/-- Parse the comma-separated items of a rendered search-path list:
each item is `"<path>".to_string()`, items are separated by `", "`, and
the list ends at the closing `)`.  `fuel` bounds the number of items. -/
def parseListItems : Nat → List Char → Option (List String)
  | 0, _ => none
  | fuel + 1, l =>
    match l with
    | [] => none
    | c :: rest =>
      if c = '\x22' then
        match lexStrBody rest with
        | none => none
        | some (content, r) =>
          match stripPfx (".to_string()").data r with
          | none => none
          | some r2 =>
            match r2 with
            | [')'] => some [String.mk content]
            | ',' :: ' ' :: r3 =>
              match parseListItems fuel r3 with
              | some items => some (String.mk content :: items)
              | none => none
            | _ => none
      else none

/-- Parse a fragment of the exact shape
`Some("p0".to_string(), "p1".to_string(), ...)` into its list of decoded
paths, in order. -/
def parseSomeStringList (s : String) : Option (List String) :=
  match stripPfx ("Some(").data s.data with
  | none => none
  | some l => parseListItems l.length l

/-- A fresh, never-bound scripting environment. -/
def envExample : StarEnv :=
  { vars := [], typeValues := [], heap := [], nextRef := 0, frozen := false }

/-- A concrete context value for witnesses. -/
def ctxExample : TuggerContext := { logger := 0, code_signers := [] }

/-- The environment `envExample` after a successful bind of
`ctxExample`. -/
def envExampleBound : StarEnv :=
  { vars := [(ENVIRONMENT_CONTEXT_SYMBOL, 0)]
    typeValues := [((TUGGER_CONTEXT_TYPE, ENVIRONMENT_CONTEXT_SYMBOL), 0)]
    heap := [(0, ctxExample)]
    nextRef := 1
    frozen := false }

/-- A sample mutation: an extension function registering one code
signer. -/
def addSigner (c : TuggerContext) : TuggerContext :=
  { c with code_signers := 5 :: c.code_signers }

/-- The six lines preceding the indented body in the emitted
`default_python_config` file: the fixed doc comment and the function
header. -/
def configHeaderLines : List (List Char) :=
  [("/// Obtain the default Python configuration").data,
   ("///").data,
   ("/// The crate is compiled with a default Python configuration embedded").data,
   ("/// in the crate. This function will return an instance of that").data,
   ("/// configuration.").data,
   ("pub fn default_python_config<\x27a>() -> pyembed::OxidizedPythonInterpreterConfig<\x27a> \x7b").data]

/-- An empty filesystem model where no operation fails. -/
def fsExample : FsState := { files := [], createErr := [], writeErr := [] }

/-- The rendered configuration text contains, somewhere, the field
marker `fieldChunk` (e.g. `use_environment: Some(`) immediately followed
by the rendered boolean `b` and the closing `),` of the field. -/
def rendersBoolField (s fieldChunk : String) (b : Bool) : Prop :=
  ∃ pre post, s = pre ++ (fieldChunk ++ (display_bool b ++ ("),\n        " ++ post)))

lemma stripPfx_append (p l : List Char) : stripPfx p (p ++ l) = some l := by
  induction p with
  | nil => simp [stripPfx]
  | cons c cs ih => simp [stripPfx, ih]

lemma quotedOk_mem {s : String} (h : quotedOk s = true) :
    ∀ c ∈ s.data, ¬ c = '\x22' ∧ ¬ c = '\x5c' := by
  intro c hc
  have h' := List.all_eq_true.mp h c hc
  simpa using h'

lemma lexStrBody_clean (l rest : List Char)
    (h : ∀ c ∈ l, ¬ c = '\x22' ∧ ¬ c = '\x5c') :
    lexStrBody (l ++ '\x22' :: rest) = some (l, rest) := by
  induction l with
  | nil =>
    rw [List.nil_append, lexStrBody.eq_def]
    simp
  | cons c cs ih =>
    have hc := h c (by simp)
    have hcs : ∀ x ∈ cs, ¬ x = '\x22' ∧ ¬ x = '\x5c' := fun x hx => h x (by simp [hx])
    rw [List.cons_append, lexStrBody.eq_def]
    simp [hc.1, hc.2, ih hcs]

lemma hasSeq_cons_false {pat : List Char} {c : Char} {l : List Char}
    (h : hasSeq pat (c :: l) = false) :
    pat.isPrefixOf (c :: l) = false ∧ hasSeq pat l = false := by
  have h' := h
  rw [hasSeq] at h'
  exact ⟨(Bool.or_eq_false_iff.mp h').1, (Bool.or_eq_false_iff.mp h').2⟩

lemma lexRawBody3_clean (l rest : List Char)
    (h : hasSeq ['\x22', '#', '#', '#'] l = false) :
    lexRawBody3 (l ++ '\x22' :: '#' :: '#' :: '#' :: rest) = some (l, rest) := by
  induction l with
  | nil =>
    rw [List.nil_append, lexRawBody3.eq_def]
    simp
  | cons c cs ih =>
    obtain ⟨hp, ht⟩ := hasSeq_cons_false h
    have hcond : ¬(c = '\x22' ∧ (cs ++ '\x22' :: '#' :: '#' :: '#' :: rest).take 3 = ['#', '#', '#']) := by
      rintro ⟨rfl, htake⟩
      match cs with
      | [] => simp [List.take] at htake
      | [a] => simp [List.take] at htake
      | [a, b] => simp [List.take] at htake
      | a :: b :: d :: t =>
        simp [List.take] at htake
        obtain ⟨rfl, rfl, rfl⟩ := htake
        simp [List.isPrefixOf] at hp
    rw [List.cons_append, lexRawBody3.eq_def]
    simp only [hcond, if_false, ih ht]

lemma rawOk_hasSeq {s : String} (h : rawOk s = true) :
    hasSeq ['\x22', '#', '#', '#'] s.data = false := by
  simpa [rawOk] using h

lemma parseSomeQuoted_roundtrip (v : String) (hv : quotedOk v = true) :
    parseSomeQuoted ("Some(\"" ++ v ++ "\")") = some v := by
  have hmem := quotedOk_mem hv
  unfold parseSomeQuoted
  have hd : ("Some(\"" ++ v ++ "\")").data
      = ("Some(\"").data ++ (v.data ++ '\x22' :: [')']) := by
    have h2 : ("\")" : String).data = '\x22' :: [')'] := rfl
    simp [String.data_append, List.append_assoc, h2]
  rw [hd, stripPfx_append]
  simp only []
  rw [lexStrBody_clean v.data [')'] hmem]
  rfl

lemma parseSomeQuotedToString_roundtrip (v : String) (hv : quotedOk v = true) :
    parseSomeQuotedToString ("Some(\"" ++ v ++ "\".to_string())") = some v := by
  have hmem := quotedOk_mem hv
  unfold parseSomeQuotedToString
  have hd : ("Some(\"" ++ v ++ "\".to_string())").data
      = ("Some(\"").data ++ (v.data ++ '\x22' :: (".to_string())").data) := by
    have h2 : ("\".to_string())" : String).data = '\x22' :: (".to_string())").data := rfl
    simp [String.data_append, List.append_assoc, h2]
  rw [hd, stripPfx_append]
  simp only []
  rw [lexStrBody_clean v.data (".to_string())").data hmem]
  simp

lemma parseModulePayload_roundtrip (m : String) (hm : quotedOk m = true) :
    parseModulePayload (render_run_mode (RunMode.Module m)) = some m := by
  have hmem := quotedOk_mem hm
  show parseModulePayload ("pyembed::PythonRunMode::Module \x7b module: \"" ++ m ++ "\".to_string() \x7d") = some m
  unfold parseModulePayload
  have hd : ("pyembed::PythonRunMode::Module \x7b module: \"" ++ m ++ "\".to_string() \x7d").data
      = ("pyembed::PythonRunMode::Module \x7b module: \"").data
        ++ (m.data ++ '\x22' :: (".to_string() \x7d").data) := by
    have h2 : ("\".to_string() \x7d" : String).data = '\x22' :: (".to_string() \x7d").data := rfl
    simp [String.data_append, List.append_assoc, h2]
  rw [hd, stripPfx_append]
  simp only []
  rw [lexStrBody_clean m.data (".to_string() \x7d").data hmem]
  simp

lemma parseEvalPayload_roundtrip (c : String) (hc : rawOk c = true) :
    parseEvalPayload (render_run_mode (RunMode.Eval c)) = some c := by
  have hseq := rawOk_hasSeq hc
  show parseEvalPayload ("pyembed::PythonRunMode::Eval \x7b code: r###\"" ++ c ++ "\"###.to_string() \x7d") = some c
  unfold parseEvalPayload
  have hd : ("pyembed::PythonRunMode::Eval \x7b code: r###\"" ++ c ++ "\"###.to_string() \x7d").data
      = ("pyembed::PythonRunMode::Eval \x7b code: r###\"").data
        ++ (c.data ++ '\x22' :: '#' :: '#' :: '#' :: (".to_string() \x7d").data) := by
    have h2 : ("\"###.to_string() \x7d" : String).data
        = '\x22' :: '#' :: '#' :: '#' :: (".to_string() \x7d").data := rfl
    simp [String.data_append, List.append_assoc, h2]
  rw [hd, stripPfx_append]
  simp only []
  rw [lexRawBody3_clean c.data (".to_string() \x7d").data hseq]
  simp

lemma parseFilePayload_roundtrip (p : String) (hp : rawOk p = true) :
    parseFilePayload (render_run_mode (RunMode.File p)) = some p := by
  have hseq := rawOk_hasSeq hp
  show parseFilePayload ("pyembed::PythonRunMode::File \x7b path: std::path::PathBuf::new(r###\"" ++ p ++ "\"###) \x7d") = some p
  unfold parseFilePayload
  have hd : ("pyembed::PythonRunMode::File \x7b path: std::path::PathBuf::new(r###\"" ++ p ++ "\"###) \x7d").data
      = ("pyembed::PythonRunMode::File \x7b path: std::path::PathBuf::new(r###\"").data
        ++ (p.data ++ '\x22' :: '#' :: '#' :: '#' :: (") \x7d").data) := by
    have h2 : ("\"###) \x7d" : String).data
        = '\x22' :: '#' :: '#' :: '#' :: (") \x7d").data := rfl
    simp [String.data_append, List.append_assoc, h2]
  rw [hd, stripPfx_append]
  simp only []
  rw [lexRawBody3_clean p.data (") \x7d").data hseq]
  simp

/-- C1 counterexample: the renderer performs no escaping, so a string
field value that contains the chosen delimiter terminates the literal
early.  With `stdio_encoding_name = Some("\"")` the rendered fragment is
`Some(""")`, which does not lex as a `Some(<string literal>)` expression
(its third quote opens an unterminated literal); likewise an `Eval`
payload containing the raw-string terminator `"###` escapes its raw
literal. -/
theorem quote_in_string_field_breaks_literal :
    render_optional_str (some "\"") = "Some(\"\"\")"
    ∧ parseSomeQuoted "Some(\"\"\")" = none
    ∧ parseEvalPayload (render_run_mode (RunMode.Eval "\"###")) = none := by
  refine ⟨rfl, by decide, by decide⟩

/-- C1 (amended): string values are embedded verbatim with no escaping;
whenever the value is free of the delimiter-breaking content (no `"` or
`\` for the double-quoted fields; no `"###` sequence for the raw
`r###"..."###` fields) the rendered fragment parses in the intended
literal shape and the decoded payload round-trips byte for byte, while
the `None` arms render the absent marker. -/
theorem string_fields_roundtrip_when_delimiter_free :
    render_optional_str none = "None"
    ∧ (∀ v : String, quotedOk v = true →
        parseSomeQuoted (render_optional_str (some v)) = some v)
    ∧ (∀ v : String, quotedOk v = true →
        parseSomeQuotedToString (render_write_modules_directory_env (some v)) = some v)
    ∧ (∀ m : String, quotedOk m = true →
        parseModulePayload (render_run_mode (RunMode.Module m)) = some m)
    ∧ (∀ c : String, rawOk c = true →
        parseEvalPayload (render_run_mode (RunMode.Eval c)) = some c)
    ∧ (∀ p : String, rawOk p = true →
        parseFilePayload (render_run_mode (RunMode.File p)) = some p) := by
  refine ⟨rfl, ?_, ?_, parseModulePayload_roundtrip, parseEvalPayload_roundtrip,
    parseFilePayload_roundtrip⟩
  · intro v hv
    exact parseSomeQuoted_roundtrip v hv
  · intro v hv
    exact parseSomeQuotedToString_roundtrip v hv

/-- Witness for C1's amended theorem at concrete delimiter-free inputs. -/
theorem string_fields_roundtrip_witness :
    quotedOk "utf-8" = true
    ∧ parseSomeQuoted (render_optional_str (some "utf-8")) = some "utf-8"
    ∧ rawOk "import os; print(os.name)" = true
    ∧ parseEvalPayload (render_run_mode (RunMode.Eval "import os; print(os.name)"))
        = some "import os; print(os.name)" :=
  ⟨by decide,
   string_fields_roundtrip_when_delimiter_free.2.1 "utf-8" (by decide),
   by decide,
   string_fields_roundtrip_when_delimiter_free.2.2.2.2.1 "import os; print(os.name)" (by decide)⟩

/-- C2: the terminfo three-case table is rendered as the source writes
it; the `Dynamic` and `None` arms are well-formed literal fragments, but
the `Static` arm's format string lacks its closing parenthesis, so the
emitted `Static` fragment is not a balanced, well-formed call expression
(one more `(` than `)`); the generated source cannot parse. -/
theorem terminfo_static_missing_paren :
    render_terminfo (TerminfoResolution.Static "terminfo")
      = "pyembed::TerminfoResolution::Static(r###\"terminfo\"###"
    ∧ terminfoWellFormed (render_terminfo (TerminfoResolution.Static "terminfo")) = false
    ∧ parenDelta (render_terminfo (TerminfoResolution.Static "terminfo")) = 1
    ∧ terminfoWellFormed (render_terminfo TerminfoResolution.Dynamic) = true
    ∧ terminfoWellFormed (render_terminfo TerminfoResolution.None) = true
    ∧ parseStaticTerminfo ("pyembed::TerminfoResolution::Static(r###\"terminfo\"###" ++ ")")
        = some "terminfo" := by
  refine ⟨rfl, by decide, by decide, by decide, by decide, by decide⟩

/-- C3: the integer level tables are total: levels 0, 1 and 2 select
their matching cases; every other integer falls through to the level-two
case (`OptimizationLevel::Two`, `BytesWarning::Raise`). -/
theorem optimize_and_bytes_warning_clamp :
    render_optimize_level 0 = "pyembed::OptimizationLevel::Zero"
    ∧ render_optimize_level 1 = "pyembed::OptimizationLevel::One"
    ∧ render_optimize_level 2 = "pyembed::OptimizationLevel::Two"
    ∧ (∀ n : Int, ¬(n = 0 ∨ n = 1 ∨ n = 2) →
        render_optimize_level n = "pyembed::OptimizationLevel::Two")
    ∧ render_bytes_warning 0 = "pyembed::BytesWarning::None"
    ∧ render_bytes_warning 1 = "pyembed::BytesWarning::Warn"
    ∧ render_bytes_warning 2 = "pyembed::BytesWarning::Raise"
    ∧ (∀ n : Int, ¬(n = 0 ∨ n = 1 ∨ n = 2) →
        render_bytes_warning n = "pyembed::BytesWarning::Raise") := by
  refine ⟨by decide, by decide, by decide, ?_, by decide, by decide, by decide, ?_⟩
  · intro n h
    push_neg at h
    simp [render_optimize_level, h.1, h.2.1, h.2.2]
  · intro n h
    push_neg at h
    simp [render_bytes_warning, h.1, h.2.1, h.2.2]

/-- Witness for C3 at the out-of-domain levels 7 and -3. -/
theorem optimize_and_bytes_warning_clamp_witness :
    ¬((7 : Int) = 0 ∨ (7 : Int) = 1 ∨ (7 : Int) = 2)
    ∧ render_optimize_level 7 = "pyembed::OptimizationLevel::Two"
    ∧ ¬((-3 : Int) = 0 ∨ (-3 : Int) = 1 ∨ (-3 : Int) = 2)
    ∧ render_bytes_warning (-3) = "pyembed::BytesWarning::Raise" :=
  ⟨by decide,
   optimize_and_bytes_warning_clamp.2.2.2.1 7 (by decide),
   by decide,
   optimize_and_bytes_warning_clamp.2.2.2.2.2.2.2 (-3) (by decide)⟩

lemma isPrefixOf_append_eq (p a b : List Char) (h : p.length ≤ a.length) :
    p.isPrefixOf (a ++ b) = p.isPrefixOf a := by
  rw [Bool.eq_iff_iff, List.isPrefixOf_iff_prefix, List.isPrefixOf_iff_prefix]
  constructor
  · intro hp
    have htake := List.prefix_iff_eq_take.mp hp
    rw [List.take_append_of_le_length h] at htake
    rw [htake]
    exact List.take_prefix _ _
  · intro hp
    exact hp.trans (List.prefix_append a b)

lemma leadsWith_concat₂ (mk lit1 m lit2 : String)
    (h : mk.data.length ≤ lit1.data.length) :
    leadsWith ((lit1 ++ m) ++ lit2) mk = leadsWith lit1 mk := by
  unfold leadsWith
  rw [String.data_append, String.data_append]
  rw [isPrefixOf_append_eq _ _ _
    (by rw [List.length_append]; exact le_trans h (Nat.le_add_right _ _))]
  rw [isPrefixOf_append_eq _ _ _ h]

/-- C4: every rendered run-mode literal starts with exactly one of the
five variant markers, namely the marker of the input variant, and the
module / eval / file payloads are embedded verbatim (byte for byte; the
renderer applies no escaping) inside the remainder of the literal. -/
theorem run_mode_exactly_one_marker (rm : RunMode) :
    runModeMarkers.countP (fun mk => leadsWith (render_run_mode rm) mk) = 1
    ∧ leadsWith (render_run_mode rm) (run_mode_marker rm) = true
    ∧ (match rm with
       | RunMode.Noop => render_run_mode rm = run_mode_marker rm
       | RunMode.Repl => render_run_mode rm = run_mode_marker rm
       | RunMode.Module m => render_run_mode rm
           = run_mode_marker rm ++ " \x7b module: \"" ++ m ++ "\".to_string() \x7d"
       | RunMode.Eval c => render_run_mode rm
           = run_mode_marker rm ++ " \x7b code: r###\"" ++ c ++ "\"###.to_string() \x7d"
       | RunMode.File p => render_run_mode rm
           = run_mode_marker rm ++ " \x7b path: std::path::PathBuf::new(r###\"" ++ p ++ "\"###) \x7d") := by
  cases rm with
  | Noop => exact ⟨by decide, by decide, by decide⟩
  | Repl => exact ⟨by decide, by decide, by decide⟩
  | Module m =>
    have e : render_run_mode (RunMode.Module m)
        = ("pyembed::PythonRunMode::Module \x7b module: \"" ++ m) ++ "\".to_string() \x7d" := rfl
    have h1 : leadsWith (render_run_mode (RunMode.Module m)) "pyembed::PythonRunMode::None" = false := by
      rw [e, leadsWith_concat₂ _ _ _ _ (by decide)]; decide
    have h2 : leadsWith (render_run_mode (RunMode.Module m)) "pyembed::PythonRunMode::Repl" = false := by
      rw [e, leadsWith_concat₂ _ _ _ _ (by decide)]; decide
    have h3 : leadsWith (render_run_mode (RunMode.Module m)) "pyembed::PythonRunMode::Module" = true := by
      rw [e, leadsWith_concat₂ _ _ _ _ (by decide)]; decide
    have h4 : leadsWith (render_run_mode (RunMode.Module m)) "pyembed::PythonRunMode::Eval" = false := by
      rw [e, leadsWith_concat₂ _ _ _ _ (by decide)]; decide
    have h5 : leadsWith (render_run_mode (RunMode.Module m)) "pyembed::PythonRunMode::File" = false := by
      rw [e, leadsWith_concat₂ _ _ _ _ (by decide)]; decide
    refine ⟨?_, h3, rfl⟩
    simp [runModeMarkers, List.countP_cons, List.countP_nil, h1, h2, h3, h4, h5]
  | Eval c =>
    have e : render_run_mode (RunMode.Eval c)
        = ("pyembed::PythonRunMode::Eval \x7b code: r###\"" ++ c) ++ "\"###.to_string() \x7d" := rfl
    have h1 : leadsWith (render_run_mode (RunMode.Eval c)) "pyembed::PythonRunMode::None" = false := by
      rw [e, leadsWith_concat₂ _ _ _ _ (by decide)]; decide
    have h2 : leadsWith (render_run_mode (RunMode.Eval c)) "pyembed::PythonRunMode::Repl" = false := by
      rw [e, leadsWith_concat₂ _ _ _ _ (by decide)]; decide
    have h3 : leadsWith (render_run_mode (RunMode.Eval c)) "pyembed::PythonRunMode::Module" = false := by
      rw [e, leadsWith_concat₂ _ _ _ _ (by decide)]; decide
    have h4 : leadsWith (render_run_mode (RunMode.Eval c)) "pyembed::PythonRunMode::Eval" = true := by
      rw [e, leadsWith_concat₂ _ _ _ _ (by decide)]; decide
    have h5 : leadsWith (render_run_mode (RunMode.Eval c)) "pyembed::PythonRunMode::File" = false := by
      rw [e, leadsWith_concat₂ _ _ _ _ (by decide)]; decide
    refine ⟨?_, h4, rfl⟩
    simp [runModeMarkers, List.countP_cons, List.countP_nil, h1, h2, h3, h4, h5]
  | File p =>
    have e : render_run_mode (RunMode.File p)
        = ("pyembed::PythonRunMode::File \x7b path: std::path::PathBuf::new(r###\"" ++ p) ++ "\"###) \x7d" := rfl
    have h1 : leadsWith (render_run_mode (RunMode.File p)) "pyembed::PythonRunMode::None" = false := by
      rw [e, leadsWith_concat₂ _ _ _ _ (by decide)]; decide
    have h2 : leadsWith (render_run_mode (RunMode.File p)) "pyembed::PythonRunMode::Repl" = false := by
      rw [e, leadsWith_concat₂ _ _ _ _ (by decide)]; decide
    have h3 : leadsWith (render_run_mode (RunMode.File p)) "pyembed::PythonRunMode::Module" = false := by
      rw [e, leadsWith_concat₂ _ _ _ _ (by decide)]; decide
    have h4 : leadsWith (render_run_mode (RunMode.File p)) "pyembed::PythonRunMode::Eval" = false := by
      rw [e, leadsWith_concat₂ _ _ _ _ (by decide)]; decide
    have h5 : leadsWith (render_run_mode (RunMode.File p)) "pyembed::PythonRunMode::File" = true := by
      rw [e, leadsWith_concat₂ _ _ _ _ (by decide)]; decide
    refine ⟨?_, h5, rfl⟩
    simp [runModeMarkers, List.countP_cons, List.countP_nil, h1, h2, h3, h4, h5]

lemma parseListItems_step (f : Nat) (p : String) (hp : quotedOk p = true) (tail : List Char) :
    parseListItems (f + 1) ('\x22' :: (p.data ++ '\x22' :: ((".to_string()").data ++ tail)))
      = (match tail with
         | [')'] => some [p]
         | ',' :: ' ' :: r3 =>
           (match parseListItems f r3 with
            | some items => some (p :: items)
            | none => none)
         | _ => none) := by
  rw [parseListItems.eq_def]
  simp only []
  rw [lexStrBody_clean p.data _ (quotedOk_mem hp)]
  simp only []
  rw [stripPfx_append]
  simp only [if_true]

lemma join_comma_items_length (ps : List String) :
    ps.length ≤ (join_comma (ps.map (fun p => "\"" ++ p ++ "\".to_string()"))).data.length + 1 := by
  induction ps with
  | nil => simp [join_comma]
  | cons p ps ih =>
    cases ps with
    | nil => simp [join_comma]
    | cons q rest =>
      have e : join_comma ((p :: q :: rest).map (fun p => "\"" ++ p ++ "\".to_string()"))
          = ("\"" ++ p ++ "\".to_string()") ++ ", "
            ++ join_comma ((q :: rest).map (fun p => "\"" ++ p ++ "\".to_string()")) := by
        simp [join_comma]
      rw [e]
      simp only [String.data_append, List.length_append, List.length_cons]
      simp only [List.length_cons] at ih
      omega

lemma parseListItems_roundtrip (ps : List String) (fuel : Nat)
    (hne : ps ≠ []) (hclean : ∀ p ∈ ps, quotedOk p = true)
    (hfuel : ps.length ≤ fuel) :
    parseListItems fuel
      ((join_comma (ps.map (fun p => "\"" ++ p ++ "\".to_string()"))).data ++ [')'])
      = some ps := by
  induction ps generalizing fuel with
  | nil => exact absurd rfl hne
  | cons p ps ih =>
    obtain ⟨f, rfl⟩ : ∃ f, fuel = f + 1 := by
      refine ⟨fuel - 1, ?_⟩
      have : 1 ≤ fuel := le_trans (by simp) hfuel
      omega
    have hp : quotedOk p = true := hclean p (by simp)
    cases ps with
    | nil =>
      have e : (join_comma ([p].map (fun p => "\"" ++ p ++ "\".to_string()"))).data ++ [')']
          = '\x22' :: (p.data ++ '\x22' :: ((".to_string()").data ++ [')'])) := by
        have h1 : ("\"" : String).data = ['\x22'] := rfl
        have h2 : ("\".to_string()" : String).data = '\x22' :: (".to_string()").data := rfl
        simp [join_comma, String.data_append, List.append_assoc, h1, h2]
      rw [e, parseListItems_step f p hp]
      rfl
    | cons q rest =>
      have e : (join_comma ((p :: q :: rest).map (fun p => "\"" ++ p ++ "\".to_string()"))).data ++ [')']
          = '\x22' :: (p.data ++ '\x22' :: ((".to_string()").data
              ++ (',' :: ' ' :: ((join_comma ((q :: rest).map (fun p => "\"" ++ p ++ "\".to_string()"))).data ++ [')'])))) := by
        have h1 : ("\"" : String).data = ['\x22'] := rfl
        have h2 : ("\".to_string()" : String).data = '\x22' :: (".to_string()").data := rfl
        have h3 : (", " : String).data = [',', ' '] := rfl
        simp [join_comma, String.data_append, List.append_assoc, h1, h2, h3]
      rw [e, parseListItems_step f p hp]
      simp only []
      have hclean' : ∀ x ∈ q :: rest, quotedOk x = true := fun x hx => hclean x (by simp [hx])
      have hfuel' : (q :: rest).length ≤ f := by
        simp only [List.length_cons] at hfuel ⊢
        omega
      rw [ih f (by simp) hclean' hfuel']

/-- C5: an empty module-search-paths sequence renders as the explicit
absent marker `None` (not as a present-but-empty list), and a non-empty
sequence renders as `Some(...)` wrapping the paths in input order: for
delimiter-free paths the rendered fragment parses back to exactly the
input list. -/
theorem module_search_paths_empty_unset :
    render_sys_paths [] = "None"
    ∧ (∀ ps : List String, ps ≠ [] → (∀ p ∈ ps, quotedOk p = true) →
        parseSomeStringList (render_sys_paths ps) = some ps) := by
  refine ⟨rfl, ?_⟩
  intro ps hne hclean
  have hne' : ps.isEmpty = false := by
    cases ps with
    | nil => exact absurd rfl hne
    | cons a l => rfl
  unfold render_sys_paths
  rw [hne']
  simp only [Bool.false_eq_true, if_false]
  unfold parseSomeStringList
  have hd : ("Some(" ++ join_comma (ps.map (fun p => "\"" ++ p ++ "\".to_string()")) ++ ")").data
      = ("Some(").data ++ ((join_comma (ps.map (fun p => "\"" ++ p ++ "\".to_string()"))).data ++ [')']) := by
    have h1 : (")" : String).data = [')'] := rfl
    simp [String.data_append, List.append_assoc, h1]
  rw [hd, stripPfx_append]
  simp only []
  refine parseListItems_roundtrip ps _ hne hclean ?_
  rw [List.length_append]
  simpa using join_comma_items_length ps

/-- Witness for C5 at a concrete two-element path list. -/
theorem module_search_paths_witness :
    (["lib", "lib/site-packages"] : List String) ≠ []
    ∧ (∀ p ∈ (["lib", "lib/site-packages"] : List String), quotedOk p = true)
    ∧ parseSomeStringList (render_sys_paths ["lib", "lib/site-packages"])
        = some ["lib", "lib/site-packages"] :=
  ⟨by decide, by decide,
   module_search_paths_empty_unset.2 ["lib", "lib/site-packages"] (by decide) (by decide)⟩

/-- C6: on any environment whose type-value table has no entry for the
reserved symbol (in particular one on which bind was never called),
`get_context_value` fails -- it never falls back to a default -- and the
error is exactly the dedicated context-not-found `RuntimeError`, with
its distinguishing code `TUGGER` and its dedicated message, distinct
from the `EnvironmentError` values the bind path can produce. -/
theorem resolve_unbound_fails (tv : List ((String × String) × Nat))
    (h : lookupTV tv TUGGER_CONTEXT_TYPE ENVIRONMENT_CONTEXT_SYMBOL = none) :
    get_context_value tv = Except.error contextNotFoundError
    ∧ contextNotFoundError.code = "TUGGER"
    ∧ contextNotFoundError.message = "unable to resolve context (this should never happen)" := by
  refine ⟨?_, rfl, rfl⟩
  unfold get_context_value
  rw [h]

/-- Witness for C6 on the fresh environment's empty type-value table. -/
theorem resolve_unbound_fails_witness :
    lookupTV [] TUGGER_CONTEXT_TYPE ENVIRONMENT_CONTEXT_SYMBOL = none
    ∧ get_context_value [] = Except.error contextNotFoundError :=
  ⟨rfl, (resolve_unbound_fails [] rfl).1⟩

/-- C7: after a successful bind, resolve succeeds and returns the very
reference cell that bind installed, so any mutation of the context state
made through that cell before a resolve is visible through the resolved
handle (the bound and resolved handles are the same logical instance). -/
theorem resolve_after_bind (env : StarEnv) (ctx : TuggerContext)
    (f : TuggerContext → TuggerContext) (env1 : StarEnv)
    (h : populate_environment env ctx = Except.ok env1) :
    get_context_value env1.typeValues = Except.ok env.nextRef
    ∧ heapLookup env1.heap env.nextRef = some ctx
    ∧ get_context_value (mutateContext env1 env.nextRef f).typeValues = Except.ok env.nextRef
    ∧ heapLookup (mutateContext env1 env.nextRef f).heap env.nextRef = some (f ctx) := by
  unfold populate_environment at h
  cases hfz : env.frozen with
  | true => rw [hfz] at h; simp at h
  | false =>
    rw [hfz] at h
    simp only [Bool.false_eq_true, if_false, lookupA, if_pos rfl] at h
    injection h with h1
    subst h1
    refine ⟨?_, ?_, ?_, ?_⟩
    · simp [get_context_value, lookupTV]
    · simp [heapLookup]
    · simp [get_context_value, mutateContext, lookupTV]
    · show heapLookup (mutateContext _ _ _).heap _ = _
      unfold mutateContext
      simp only [List.map_cons]
      simp [heapLookup]

/-- Witness for C7: bind on a fresh environment, then a mutation through
the installed cell, then resolve. -/
theorem resolve_after_bind_witness :
    populate_environment envExample ctxExample = Except.ok envExampleBound
    ∧ get_context_value envExampleBound.typeValues = Except.ok envExample.nextRef
    ∧ heapLookup (mutateContext envExampleBound envExample.nextRef addSigner).heap envExample.nextRef
        = some (addSigner ctxExample) :=
  ⟨rfl,
   (resolve_after_bind envExample ctxExample addSigner envExampleBound rfl).1,
   (resolve_after_bind envExample ctxExample addSigner envExampleBound rfl).2.2.2⟩

/-- C9 counterexample: the reserved symbol `TUGGER_CONTEXT` is itself a
syntactically valid user-definable script identifier, and bind installs
the context under that name in the script-visible variable namespace
(`env.set`), so the "never collides with a user-definable identifier /
not user-reachable" part of the claim is false: the identifier
`TUGGER_CONTEXT` resolves to the context in a bound environment. -/
theorem reserved_symbol_is_user_ident :
    isStarlarkIdent ENVIRONMENT_CONTEXT_SYMBOL = true
    ∧ populate_environment envExample ctxExample = Except.ok envExampleBound
    ∧ lookupA envExampleBound.vars ENVIRONMENT_CONTEXT_SYMBOL = some 0 := by
  exact ⟨by decide, rfl, rfl⟩

/-- C9 (amended): there is exactly one fixed lookup key, the string
constant `TUGGER_CONTEXT`; a successful bind installs the context under
precisely this one name in both the variable namespace and the
type-value table, and resolve uses the same name.  The key is, however,
a valid script identifier installed in the user-visible namespace, so
its reservation is by convention only. -/
theorem reserved_symbol_single_key (env : StarEnv) (ctx : TuggerContext) (env1 : StarEnv)
    (h : populate_environment env ctx = Except.ok env1) :
    ENVIRONMENT_CONTEXT_SYMBOL = "TUGGER_CONTEXT"
    ∧ isStarlarkIdent ENVIRONMENT_CONTEXT_SYMBOL = true
    ∧ env1.vars = (ENVIRONMENT_CONTEXT_SYMBOL, env.nextRef) :: env.vars
    ∧ env1.typeValues = ((TUGGER_CONTEXT_TYPE, ENVIRONMENT_CONTEXT_SYMBOL), env.nextRef) :: env.typeValues
    ∧ lookupA env1.vars ENVIRONMENT_CONTEXT_SYMBOL = some env.nextRef := by
  unfold populate_environment at h
  cases hfz : env.frozen with
  | true => rw [hfz] at h; simp at h
  | false =>
    rw [hfz] at h
    simp only [Bool.false_eq_true, if_false, lookupA, if_pos rfl] at h
    injection h with h1
    subst h1
    refine ⟨rfl, by decide, rfl, rfl, ?_⟩
    simp [lookupA]

/-- Witness for C9's amended theorem on the fresh environment. -/
theorem reserved_symbol_single_key_witness :
    ENVIRONMENT_CONTEXT_SYMBOL = "TUGGER_CONTEXT"
    ∧ isStarlarkIdent ENVIRONMENT_CONTEXT_SYMBOL = true
    ∧ envExampleBound.vars = (ENVIRONMENT_CONTEXT_SYMBOL, envExample.nextRef) :: envExample.vars
    ∧ envExampleBound.typeValues
        = ((TUGGER_CONTEXT_TYPE, ENVIRONMENT_CONTEXT_SYMBOL), envExample.nextRef) :: envExample.typeValues
    ∧ lookupA envExampleBound.vars ENVIRONMENT_CONTEXT_SYMBOL = some envExample.nextRef :=
  reserved_symbol_single_key envExample ctxExample envExampleBound rfl

lemma splitNl_cons_eq (c : Char) (rest : List Char) :
    splitNl (c :: rest)
      = (match splitNl rest with
         | [] => [[]]
         | l :: ls => if c = '\n' then [] :: l :: ls else (c :: l) :: ls) := by
  rw [splitNl.eq_def]

lemma splitNl_ne_nil (l : List Char) : splitNl l ≠ [] := by
  induction l with
  | nil => simp [splitNl]
  | cons c rest ih =>
    cases h : splitNl rest with
    | nil => rw [splitNl_cons_eq, h]; simp
    | cons x xs =>
      rw [splitNl_cons_eq, h]
      by_cases hc : c = '\n' <;> simp [hc]

lemma joinNl_cons₂ (a b : List Char) (l : List (List Char)) :
    joinNl (a :: b :: l) = a ++ '\n' :: joinNl (b :: l) := rfl

lemma joinNl_append (A B : List (List Char)) (hA : A ≠ []) (hB : B ≠ []) :
    joinNl (A ++ B) = joinNl A ++ '\n' :: joinNl B := by
  induction A with
  | nil => exact absurd rfl hA
  | cons a A ih =>
    cases A with
    | nil =>
      cases B with
      | nil => exact absurd rfl hB
      | cons b B2 => simp [joinNl_cons₂, joinNl]
    | cons a2 A2 =>
      rw [List.cons_append, List.cons_append, joinNl_cons₂]
      rw [← List.cons_append, ih (by simp)]
      rw [joinNl_cons₂]
      simp [List.append_assoc]

lemma splitNl_no_nl (a : List Char) (h : '\n' ∉ a) : splitNl a = [a] := by
  induction a with
  | nil => rfl
  | cons c rest ih =>
    have hc : ¬ c = '\n' := fun hc => h (by simp [hc])
    have hrest : '\n' ∉ rest := fun hr => h (by simp [hr])
    rw [splitNl_cons_eq, ih hrest]
    simp [hc]

lemma splitNl_append_nl (a t : List Char) (h : '\n' ∉ a) :
    splitNl (a ++ '\n' :: t) = a :: splitNl t := by
  induction a with
  | nil =>
    cases ht : splitNl t with
    | nil => exact absurd ht (splitNl_ne_nil t)
    | cons x xs =>
      rw [List.nil_append, splitNl_cons_eq, ht]
      simp [ht]
  | cons c rest ih =>
    have hc : ¬ c = '\n' := fun hc => h (by simp [hc])
    have hrest : '\n' ∉ rest := fun hr => h (by simp [hr])
    rw [List.cons_append, splitNl_cons_eq, ih hrest]
    simp [hc]

lemma splitNl_joinNl (L : List (List Char)) (hL : L ≠ [])
    (h : ∀ l ∈ L, '\n' ∉ l) : splitNl (joinNl L) = L := by
  induction L with
  | nil => exact absurd rfl hL
  | cons a A ih =>
    cases A with
    | nil => exact splitNl_no_nl a (h a (by simp))
    | cons b A2 =>
      rw [joinNl_cons₂, splitNl_append_nl a _ (h a (by simp))]
      rw [ih (by simp) (fun l hl => h l (by simp [hl]))]

lemma joinNl_splitNl (l : List Char) : joinNl (splitNl l) = l := by
  induction l with
  | nil => rfl
  | cons c rest ih =>
    cases hr : splitNl rest with
    | nil => exact absurd hr (splitNl_ne_nil rest)
    | cons x xs =>
      rw [hr] at ih
      rw [splitNl_cons_eq, hr]
      simp only []
      by_cases hc : c = '\n'
      · subst hc
        rw [if_pos rfl, joinNl_cons₂, List.nil_append, ih]
      · rw [if_neg hc]
        cases xs with
        | nil =>
          simp only [joinNl]
          rw [← ih]
          rfl
        | cons y ys =>
          rw [joinNl_cons₂] at ih
          rw [joinNl_cons₂, List.cons_append, ih]

lemma splitNl_chunks_no_nl (l : List Char) : ∀ x ∈ splitNl l, '\n' ∉ x := by
  induction l with
  | nil =>
    intro x hx
    simp [splitNl] at hx
    simp [hx]
  | cons c rest ih =>
    intro x hx
    cases hr : splitNl rest with
    | nil => exact absurd hr (splitNl_ne_nil rest)
    | cons y ys =>
      rw [splitNl_cons_eq, hr] at hx
      simp only [] at hx
      by_cases hc : c = '\n'
      · rw [if_pos hc] at hx
        rcases List.mem_cons.mp hx with rfl | hx2
        · simp
        · exact ih x (hr ▸ hx2)
      · rw [if_neg hc] at hx
        rcases List.mem_cons.mp hx with rfl | hx2
        · intro hmem
          rcases List.mem_cons.mp hmem with rfl | hmem2
          · exact hc rfl
          · exact ih y (hr ▸ List.mem_cons_self y ys) hmem2
        · exact ih x (hr ▸ List.mem_cons.mpr (Or.inr hx2))

set_option maxRecDepth 16384 in
lemma content_data_eq (body : String) :
    (default_python_config_content body).data
      = joinNl (configHeaderLines
          ++ ((splitNl body.data).map (fun l => ("    ").data ++ l) ++ [['\x7d'], []])) := by
  have hM : (splitNl body.data).map (fun l => ("    ").data ++ l) ≠ [] := by
    intro hx
    exact splitNl_ne_nil body.data (List.map_eq_nil_iff.mp hx)
  rw [joinNl_append configHeaderLines _ (by simp [configHeaderLines]) (by simp)]
  rw [joinNl_append _ _ hM (by simp)]
  have hH : ("/// Obtain the default Python configuration\n///\n/// The crate is compiled with a default Python configuration embedded\n/// in the crate. This function will return an instance of that\n/// configuration.\npub fn default_python_config<\x27a>() -> pyembed::OxidizedPythonInterpreterConfig<\x27a> \x7b\n" : String).data
      = joinNl configHeaderLines ++ ['\n'] := by rfl
  have hIC : (indent_config body).data
      = joinNl ((splitNl body.data).map (fun l => ("    ").data ++ l)) := rfl
  have hT : ("\n\x7d\n" : String).data = '\n' :: '\x7d' :: '\n' :: [] := rfl
  show (_ ++ indent_config body ++ _ : String).data = _
  rw [String.data_append, String.data_append, hH, hIC, hT]
  have hJ : joinNl [['\x7d'], ([] : List Char)] = ['\x7d', '\n'] := rfl
  rw [hJ]
  simp [List.append_assoc]

lemma content_lines (body : String) :
    splitNl (default_python_config_content body).data
      = configHeaderLines
        ++ ((splitNl body.data).map (fun l => ("    ").data ++ l) ++ [['\x7d'], []]) := by
  rw [content_data_eq]
  apply splitNl_joinNl
  · simp [configHeaderLines]
  · intro l hl
    rcases List.mem_append.mp hl with h | h
    · have hall : ∀ x ∈ configHeaderLines, '\n' ∉ x := by decide
      exact hall l h
    · rcases List.mem_append.mp h with h2 | h2
      · obtain ⟨x, hx, rfl⟩ := List.mem_map.mp h2
        intro hmem
        rcases List.mem_append.mp hmem with h3 | h3
        · have : '\n' ∉ ("    ").data := by decide
          exact this h3
        · exact splitNl_chunks_no_nl body.data x hx h3
      · have hall : ∀ x ∈ [['\x7d'], ([] : List Char)], '\n' ∉ x := by decide
        exact hall l h2

lemma count_joinNl_map (ch : Char) (pfx : List Char) (hc : pfx.count ch = 0) :
    ∀ L : List (List Char),
      (joinNl (L.map (fun l => pfx ++ l))).count ch = (joinNl L).count ch := by
  intro L
  induction L with
  | nil => rfl
  | cons a A ih =>
    cases A with
    | nil => simp [joinNl, List.count_append, hc]
    | cons b A2 =>
      have key : joinNl (List.map (fun l => pfx ++ l) (a :: b :: A2))
          = (pfx ++ a) ++ '\n' :: joinNl (List.map (fun l => pfx ++ l) (b :: A2)) := rfl
      rw [key, joinNl_cons₂]
      simp only [List.count_append, List.count_cons, ih, hc]
      ring

set_option maxRecDepth 16384 in
lemma curlyDelta_content (body : String) :
    curlyDelta (default_python_config_content body).data = curlyDelta body.data := by
  have hIC : (indent_config body).data
      = joinNl ((splitNl body.data).map (fun l => ("    ").data ++ l)) := rfl
  have hOpen := count_joinNl_map '\x7b' ("    ").data (by decide) (splitNl body.data)
  have hClose := count_joinNl_map '\x7d' ("    ").data (by decide) (splitNl body.data)
  rw [joinNl_splitNl] at hOpen hClose
  unfold curlyDelta default_python_config_content
  rw [String.data_append, String.data_append, hIC]
  simp only [List.count_append]
  rw [hOpen, hClose]
  have c1 : List.count '\x7b' ("/// Obtain the default Python configuration\n///\n/// The crate is compiled with a default Python configuration embedded\n/// in the crate. This function will return an instance of that\n/// configuration.\npub fn default_python_config<\x27a>() -> pyembed::OxidizedPythonInterpreterConfig<\x27a> \x7b\n" : String).data = 1 := by decide
  have c2 : List.count '\x7d' ("/// Obtain the default Python configuration\n///\n/// The crate is compiled with a default Python configuration embedded\n/// in the crate. This function will return an instance of that\n/// configuration.\npub fn default_python_config<\x27a>() -> pyembed::OxidizedPythonInterpreterConfig<\x27a> \x7b\n" : String).data = 0 := by decide
  have c3 : List.count '\x7b' ("\n\x7d\n" : String).data = 0 := by decide
  have c4 : List.count '\x7d' ("\n\x7d\n" : String).data = 1 := by decide
  rw [c1, c2, c3, c4]
  push_cast
  omega

set_option maxRecDepth 16384 in
/-- C8 counterexample: with the one-character body `}` every emitted
line still carries the fixed four-space indentation prefix, yet the
emitted declaration has one more closing than opening curly brace, so it
is not well-formed: indentation does not make the declaration well-formed
for arbitrary bodies. -/
theorem close_brace_body_unbalances_file :
    splitNl (default_python_config_content "\x7d").data
      = configHeaderLines ++ ([("    ").data ++ ['\x7d']] ++ [['\x7d'], []])
    ∧ curlyDelta (default_python_config_content "\x7d").data = -1
    ∧ curlyDelta ("\x7d" : String).data = -1 := by
  refine ⟨by decide, by decide, by decide⟩

/-- C8 (amended): `write_default_python_config_rs` writes a single
documented `default_python_config` declaration whose body is the input
indented line by line (every line, including lines created by embedded
newlines, receives the same four-space prefix, and the declaration's
line structure is `doc comment + header, indented body lines, closing
brace` for every body); the wrapper itself is brace-balanced, so the
declaration is well-formed exactly when the body is; `File::create` or
write failures propagate the underlying I/O error to the caller
unchanged, with no retry. -/
theorem write_config_indents_and_propagates (fs : FsState) (path body : String) :
    (∀ e, lookupA fs.createErr path = some e →
        write_default_python_config_rs fs path body = Except.error e)
    ∧ (lookupA fs.createErr path = none →
        ∀ e, lookupA fs.writeErr path = some e →
          write_default_python_config_rs fs path body = Except.error e)
    ∧ (lookupA fs.createErr path = none → lookupA fs.writeErr path = none →
        write_default_python_config_rs fs path body
          = Except.ok { fs with files := (path, default_python_config_content body) :: fs.files })
    ∧ splitNl (default_python_config_content body).data
        = configHeaderLines
          ++ ((splitNl body.data).map (fun l => ("    ").data ++ l) ++ [['\x7d'], []])
    ∧ curlyDelta (default_python_config_content body).data = curlyDelta body.data := by
  refine ⟨?_, ?_, ?_, content_lines body, curlyDelta_content body⟩
  · intro e he
    unfold write_default_python_config_rs
    rw [he]
  · intro h0 e he
    unfold write_default_python_config_rs
    rw [h0]
    simp only []
    rw [he]
  · intro h0 h1
    unfold write_default_python_config_rs
    rw [h0]
    simp only []
    rw [h1]

/-- Witness for C8's amended theorem: a successful write on the empty
filesystem model. -/
theorem write_config_witness :
    lookupA fsExample.createErr "default_python_config.rs" = none
    ∧ lookupA fsExample.writeErr "default_python_config.rs" = none
    ∧ write_default_python_config_rs fsExample "default_python_config.rs" "config \x7b\x7d"
        = Except.ok { fsExample with
            files := [("default_python_config.rs", default_python_config_content "config \x7b\x7d")] } :=
  ⟨rfl, rfl,
   (write_config_indents_and_propagates fsExample "default_python_config.rs" "config \x7b\x7d").2.2.1 rfl rfl⟩

lemma rbf_here (c : String) (b : Bool) (rest : String) :
    rendersBoolField (c ++ (display_bool b ++ ("),\n        " ++ rest))) c b := by
  refine ⟨"", rest, ?_⟩
  rw [String.empty_append]

lemma rbf_shift (x s c : String) (b : Bool) (h : rendersBoolField s c b) :
    rendersBoolField (x ++ s) c b := by
  obtain ⟨pre, post, rfl⟩ := h
  exact ⟨x ++ pre, post, by rw [String.append_assoc]⟩

set_option maxHeartbeats 4000000 in
/-- C10: in the full rendered configuration, the `use_environment` field
carries the negation of the model's `ignore_environment` flag and the
`buffered_stdio` field carries the negation of `unbuffered_stdio` (these
two model flags have inverted polarity relative to the generated
literal), while the other nine boolean feature flags are rendered with
their model values unnegated. -/
theorem boolean_flag_polarity (cfg : EmbeddedPythonConfig) (path : String) :
    rendersBoolField (derive_python_config cfg path) "use_environment: Some(" (!cfg.ignore_environment)
    ∧ rendersBoolField (derive_python_config cfg path) "buffered_stdio: Some(" (!cfg.unbuffered_stdio)
    ∧ rendersBoolField (derive_python_config cfg path) "site_import: Some(" cfg.site_import
    ∧ rendersBoolField (derive_python_config cfg path) "user_site_directory: Some(" cfg.user_site_directory
    ∧ rendersBoolField (derive_python_config cfg path) "inspect: Some(" cfg.inspect
    ∧ rendersBoolField (derive_python_config cfg path) "interactive: Some(" cfg.interactive
    ∧ rendersBoolField (derive_python_config cfg path) "legacy_windows_fs_encoding: Some(" cfg.legacy_windows_fs_encoding
    ∧ rendersBoolField (derive_python_config cfg path) "legacy_windows_stdio: Some(" cfg.legacy_windows_stdio
    ∧ rendersBoolField (derive_python_config cfg path) "write_bytecode: Some(" cfg.write_bytecode
    ∧ rendersBoolField (derive_python_config cfg path) "parser_debug: Some(" cfg.parser_debug
    ∧ rendersBoolField (derive_python_config cfg path) "quiet: Some(" cfg.quiet := by
  refine ⟨?_, ?_, ?_, ?_, ?_, ?_, ?_, ?_, ?_, ?_, ?_⟩ <;>
    (unfold derive_python_config
     simp only [String.append_assoc]
     repeat (first | exact rbf_here _ _ _ | apply rbf_shift))
